import Mathlib

/-!
Verification of the `sync-npmmirror` poller from `src/JavaScript/opx.mjs`
(the script after the separator: argv parsing, trigger PUT, bounded poll
loop with fixed sleep, final log fetch).

The script is sequential and effectful; we embed it as a pure function
from an environment (the responses the network would give) to the trace
of observable events the script performs, in order: fetches, writes to
stdout/stderr, sleeps, and the final process exit.
-/

/-- Parsed JSON body of the trigger response: `{ ok: boolean, logId: string }`. -/
structure SyncResp where
  ok : Bool
  logId : String
  deriving Repr, DecidableEq

/-- Parsed JSON body of a status response:
`{ ok: boolean; syncDone: boolean; logUrl: string }`. -/
structure SyncStatus where
  ok : Bool
  syncDone : Bool
  logUrl : String
  deriving Repr, DecidableEq

/-- The world the script talks to: the trigger response, the status
response returned to the i-th status request (0-based), and the text body
returned by a GET on each URL (used for the final `logUrl` fetch). -/
structure Env where
  syncResp : SyncResp
  statuses : Nat → SyncStatus
  logBody : String → String

/-- One observable step of the script. -/
inductive Event where
  | fetchTrigger (url : String)
  | fetchStatus (url : String)
  | fetchLog (url : String)
  | writeStdout (s : String)
  | writeStderr (s : String)
  | sleep (ms : Nat)
  | exitWith (code : Nat)
  deriving Repr, DecidableEq

/-- JavaScript truthiness of `argv[0]`: `undefined` (absent) and the empty
string are falsy, every other string is truthy. -/
def jsTruthy : Option String → Bool
  | none => false
  | some s => !(s == "")

/-- A plain object interpolated into a JS template literal stringifies via
the default `Object.prototype.toString`. This models `${syncResp}` in
`exit(`Failed to sync: ${syncResp}`)`. -/
def jsTemplate (_ : SyncResp) : String := "[object Object]"

/-- The source's `const MAX_PULL = 10;`. -/
def MAX_PULL : Nat := 10

/-- URL of the trigger request:
`https://registry-direct.npmmirror.com/${packageName}/sync`. -/
def triggerUrl (packageName : String) : String :=
  "https://registry-direct.npmmirror.com/" ++ packageName ++ "/sync"

/-- URL of every status request:
`https://registry-direct.npmmirror.com/express/sync/log/${syncResp.logId}`
(the package segment is the literal `express` in the source). -/
def statusUrl (logId : String) : String :=
  "https://registry-direct.npmmirror.com/express/sync/log/" ++ logId

/-- The per-attempt progress message `Checking status... (${i + 1}/${MAX_PULL})\n`. -/
def checkingMsg (i : Nat) : String :=
  "Checking status... (" ++ toString (i + 1) ++ "/" ++ toString MAX_PULL ++ ")\n"

/-- The usage text `Usage: sync-npmmirror <package-name>\n`. -/
def usageMsg : String := "Usage: sync-npmmirror <package-name>\n"

/-- The loop guard `status.ok && status.syncDone` at attempt `i`. -/
def done (env : Env) (i : Nat) : Bool :=
  (env.statuses i).ok && (env.statuses i).syncDone

/-- The poll loop `for (let i = 0; i < MAX_PULL; i++) { ... }`, started at
index `i` with `fuel` iterations remaining (`fuel = MAX_PULL - i`). Each
iteration writes the progress message to stderr, fetches the status URL,
and either (on `ok && syncDone`) fetches `logUrl`, writes its body to
stdout and breaks, or sleeps 5000 ms and continues. -/
def pollFrom (env : Env) (logId : String) : Nat → Nat → List Event
  | _, 0 => []
  | i, fuel + 1 =>
    if done env i then
      [.writeStderr (checkingMsg i), .fetchStatus (statusUrl logId),
       .fetchLog (env.statuses i).logUrl,
       .writeStdout (env.logBody (env.statuses i).logUrl)]
    else
      .writeStderr (checkingMsg i) :: .fetchStatus (statusUrl logId) ::
        .sleep 5000 :: pollFrom env logId (i + 1) fuel

/-- The whole script: argv check, `Syncing ...` notice, trigger PUT,
`ok` check, `Sync started` notice, poll loop, implicit exit 0 at end of
script (`exit(message)` uses the default code 1). -/
def runSync (env : Env) (argv : List String) : List Event :=
  let packageName := argv.head?
  if jsTruthy packageName then
    let p := packageName.getD ""
    .writeStderr ("Syncing " ++ p ++ "...\n") ::
    .fetchTrigger (triggerUrl p) ::
    (if env.syncResp.ok then
      .writeStderr ("Sync started: " ++ env.syncResp.logId ++ "\n") ::
        (pollFrom env env.syncResp.logId 0 MAX_PULL ++ [.exitWith 0])
     else
      [.writeStderr ("Failed to sync: " ++ jsTemplate env.syncResp), .exitWith 1])
  else
    [.writeStderr usageMsg, .exitWith 1]

/-! ### Observations over a trace -/

def Event.statusUrlOf : Event → Option String
  | .fetchStatus u => some u
  | _ => none

def Event.triggerUrlOf : Event → Option String
  | .fetchTrigger u => some u
  | _ => none

def Event.logUrlOf : Event → Option String
  | .fetchLog u => some u
  | _ => none

def Event.sleepOf : Event → Option Nat
  | .sleep ms => some ms
  | _ => none

def Event.stdoutOf : Event → Option String
  | .writeStdout s => some s
  | _ => none

def Event.stderrOf : Event → Option String
  | .writeStderr s => some s
  | _ => none

def Event.exitOf : Event → Option Nat
  | .exitWith c => some c
  | _ => none

/-- URLs of the status requests a trace issues, in order. -/
def statusUrlsOf (t : List Event) : List String := t.filterMap Event.statusUrlOf

/-- URLs of the trigger requests a trace issues, in order. -/
def triggerUrlsOf (t : List Event) : List String := t.filterMap Event.triggerUrlOf

/-- URLs of the log fetches a trace issues, in order. -/
def logUrlsOf (t : List Event) : List String := t.filterMap Event.logUrlOf

/-- Durations of the sleeps a trace performs, in order. -/
def sleepsOf (t : List Event) : List Nat := t.filterMap Event.sleepOf

/-- Messages a trace writes to stderr, in order. -/
def stderrsOf (t : List Event) : List String := t.filterMap Event.stderrOf

/-- Exit codes a trace reports (every `runSync` trace ends in exactly one). -/
def exitCodesOf (t : List Event) : List Nat := t.filterMap Event.exitOf

def concatAll : List String → String
  | [] => ""
  | s :: rest => s ++ concatAll rest

/-- Everything a trace writes to stdout, concatenated. -/
def stdoutOf (t : List Event) : String := concatAll (t.filterMap Event.stdoutOf)

/-! ### Canonical sub-traces of the poll loop -/

/-- The trace of one unsuccessful poll attempt at index `i`: progress
message, status fetch, full 5000 ms sleep. -/
def attemptBlock (logId : String) (i : Nat) : List Event :=
  [.writeStderr (checkingMsg i), .fetchStatus (statusUrl logId), .sleep 5000]

/-- The trace of `fuel` consecutive unsuccessful poll attempts starting
at index `i`. -/
def attemptsTrace (logId : String) (i : Nat) : Nat → List Event
  | 0 => []
  | fuel + 1 => attemptBlock logId i ++ attemptsTrace logId (i + 1) fuel

/-- The trace of the successful final attempt at index `i`: progress
message, status fetch, log fetch, stdout write of the log body. -/
def successBlock (env : Env) (logId : String) (i : Nat) : List Event :=
  [.writeStderr (checkingMsg i), .fetchStatus (statusUrl logId),
   .fetchLog (env.statuses i).logUrl,
   .writeStdout (env.logBody (env.statuses i).logUrl)]

/-! ### Helper lemmas -/

theorem concatAll_append (l₁ l₂ : List String) :
    concatAll (l₁ ++ l₂) = concatAll l₁ ++ concatAll l₂ := by
  induction l₁ with
  | nil => simp [concatAll]
  | cons s rest ih => simp [concatAll, ih, String.append_assoc]

theorem statusUrlsOf_append (l₁ l₂ : List Event) :
    statusUrlsOf (l₁ ++ l₂) = statusUrlsOf l₁ ++ statusUrlsOf l₂ := by
  simp [statusUrlsOf]

theorem triggerUrlsOf_append (l₁ l₂ : List Event) :
    triggerUrlsOf (l₁ ++ l₂) = triggerUrlsOf l₁ ++ triggerUrlsOf l₂ := by
  simp [triggerUrlsOf]

theorem logUrlsOf_append (l₁ l₂ : List Event) :
    logUrlsOf (l₁ ++ l₂) = logUrlsOf l₁ ++ logUrlsOf l₂ := by
  simp [logUrlsOf]

theorem sleepsOf_append (l₁ l₂ : List Event) :
    sleepsOf (l₁ ++ l₂) = sleepsOf l₁ ++ sleepsOf l₂ := by
  simp [sleepsOf]

theorem stderrsOf_append (l₁ l₂ : List Event) :
    stderrsOf (l₁ ++ l₂) = stderrsOf l₁ ++ stderrsOf l₂ := by
  simp [stderrsOf]

theorem exitCodesOf_append (l₁ l₂ : List Event) :
    exitCodesOf (l₁ ++ l₂) = exitCodesOf l₁ ++ exitCodesOf l₂ := by
  simp [exitCodesOf]

theorem stdoutOf_append (l₁ l₂ : List Event) :
    stdoutOf (l₁ ++ l₂) = stdoutOf l₁ ++ stdoutOf l₂ := by
  simp [stdoutOf, concatAll_append]

theorem pollFrom_done (env : Env) (logId : String) (i fuel : Nat)
    (h : done env i = true) :
    pollFrom env logId i (fuel + 1) = successBlock env logId i := by
  simp [pollFrom, successBlock, h]

theorem pollFrom_not_done (env : Env) (logId : String) (i fuel : Nat)
    (h : done env i = false) :
    pollFrom env logId i (fuel + 1) =
      attemptBlock logId i ++ pollFrom env logId (i + 1) fuel := by
  simp [pollFrom, attemptBlock, h]

/-- If every attempt in range fails the `ok && syncDone` test, the poll
loop is exactly the chain of unsuccessful attempt blocks. -/
theorem pollFrom_timeout (env : Env) (logId : String) :
    ∀ fuel i, (∀ j, j < fuel → done env (i + j) = false) →
      pollFrom env logId i fuel = attemptsTrace logId i fuel := by
  intro fuel
  induction fuel with
  | zero => intro i _; rfl
  | succ fuel ih =>
    intro i h
    have h0 : done env i = false := by simpa using h 0 (Nat.succ_pos fuel)
    have hrest : ∀ j, j < fuel → done env (i + 1 + j) = false := by
      intro j hj
      have := h (j + 1) (Nat.succ_lt_succ hj)
      simpa [Nat.add_assoc, Nat.add_comm 1 j] using this
    simp [pollFrom, h0, attemptsTrace, attemptBlock, ih (i + 1) hrest]

/-- If attempt `i + k` is the first in range to pass the `ok && syncDone`
test, the poll loop is `k` unsuccessful blocks followed by the success
block, and stops there. -/
theorem pollFrom_success (env : Env) (logId : String) :
    ∀ k fuel i, k < fuel → done env (i + k) = true →
      (∀ j, j < k → done env (i + j) = false) →
      pollFrom env logId i fuel =
        attemptsTrace logId i k ++ successBlock env logId (i + k) := by
  intro k
  induction k with
  | zero =>
    intro fuel i hk hdone _
    match fuel, hk with
    | fuel + 1, _ =>
      simp only [Nat.add_zero] at hdone
      simp [pollFrom, hdone, attemptsTrace, successBlock]
  | succ k ih =>
    intro fuel i hk hdone hbefore
    match fuel, hk with
    | fuel + 1, hk =>
      have h0 : done env i = false := by simpa using hbefore 0 (Nat.succ_pos k)
      have hdone' : done env (i + 1 + k) = true := by
        simpa [Nat.add_assoc, Nat.add_comm 1 k] using hdone
      have hbefore' : ∀ j, j < k → done env (i + 1 + j) = false := by
        intro j hj
        have := hbefore (j + 1) (Nat.succ_lt_succ hj)
        simpa [Nat.add_assoc, Nat.add_comm 1 j] using this
      have := ih fuel (i + 1) (Nat.lt_of_succ_lt_succ hk) hdone' hbefore'
      simp [pollFrom, h0, attemptsTrace, attemptBlock, this,
        Nat.add_assoc, Nat.add_comm 1 k]

theorem statusUrlsOf_attemptsTrace (logId : String) :
    ∀ fuel i, statusUrlsOf (attemptsTrace logId i fuel) =
      List.replicate fuel (statusUrl logId) := by
  intro fuel
  induction fuel with
  | zero => intro i; rfl
  | succ fuel ih =>
    intro i
    show statusUrlsOf (attemptBlock logId i ++ attemptsTrace logId (i + 1) fuel) = _
    rw [statusUrlsOf_append, ih]
    rfl

theorem sleepsOf_attemptsTrace (logId : String) :
    ∀ fuel i, sleepsOf (attemptsTrace logId i fuel) =
      List.replicate fuel 5000 := by
  intro fuel
  induction fuel with
  | zero => intro i; rfl
  | succ fuel ih =>
    intro i
    show sleepsOf (attemptBlock logId i ++ attemptsTrace logId (i + 1) fuel) = _
    rw [sleepsOf_append, ih]
    rfl

theorem stdoutOf_attemptsTrace (logId : String) :
    ∀ fuel i, stdoutOf (attemptsTrace logId i fuel) = "" := by
  intro fuel
  induction fuel with
  | zero => intro i; rfl
  | succ fuel ih =>
    intro i
    show stdoutOf (attemptBlock logId i ++ attemptsTrace logId (i + 1) fuel) = _
    rw [stdoutOf_append, ih]
    rfl

theorem logUrlsOf_attemptsTrace (logId : String) :
    ∀ fuel i, logUrlsOf (attemptsTrace logId i fuel) = [] := by
  intro fuel
  induction fuel with
  | zero => intro i; rfl
  | succ fuel ih =>
    intro i
    show logUrlsOf (attemptBlock logId i ++ attemptsTrace logId (i + 1) fuel) = _
    rw [logUrlsOf_append, ih]
    rfl

theorem triggerUrlsOf_attemptsTrace (logId : String) :
    ∀ fuel i, triggerUrlsOf (attemptsTrace logId i fuel) = [] := by
  intro fuel
  induction fuel with
  | zero => intro i; rfl
  | succ fuel ih =>
    intro i
    show triggerUrlsOf (attemptBlock logId i ++ attemptsTrace logId (i + 1) fuel) = _
    rw [triggerUrlsOf_append, ih]
    rfl

theorem exitCodesOf_attemptsTrace (logId : String) :
    ∀ fuel i, exitCodesOf (attemptsTrace logId i fuel) = [] := by
  intro fuel
  induction fuel with
  | zero => intro i; rfl
  | succ fuel ih =>
    intro i
    show exitCodesOf (attemptBlock logId i ++ attemptsTrace logId (i + 1) fuel) = _
    rw [exitCodesOf_append, ih]
    rfl

/-- Each attempt in a chain of unsuccessful attempts writes its numbered
progress message to stderr. -/
theorem checkingMsg_mem_attemptsTrace (logId : String) :
    ∀ fuel i j, j < fuel →
      checkingMsg (i + j) ∈ stderrsOf (attemptsTrace logId i fuel) := by
  intro fuel
  induction fuel with
  | zero => intro i j hj; exact absurd hj (Nat.not_lt_zero j)
  | succ fuel ih =>
    intro i j hj
    have hsplit : stderrsOf (attemptsTrace logId i (fuel + 1)) =
        stderrsOf (attemptBlock logId i) ++
          stderrsOf (attemptsTrace logId (i + 1) fuel) := by
      show stderrsOf (attemptBlock logId i ++ attemptsTrace logId (i + 1) fuel) = _
      rw [stderrsOf_append]
    rw [hsplit]
    rcases j with _ | j
    · exact List.mem_append_left _ (by simp [attemptBlock, stderrsOf, Event.stderrOf])
    · refine List.mem_append_right _ ?_
      have := ih (i + 1) j (Nat.lt_of_succ_lt_succ hj)
      simpa [Nat.add_assoc, Nat.add_comm 1 j] using this

/-- A nonempty chain of unsuccessful attempts ends with a status fetch
followed by the full sleep. -/
theorem attemptsTrace_ends_with_sleep (logId : String) :
    ∀ fuel i, 0 < fuel → ∃ t, attemptsTrace logId i fuel =
      t ++ [.fetchStatus (statusUrl logId), .sleep 5000] := by
  intro fuel
  induction fuel with
  | zero => intro i h; exact absurd h (Nat.lt_irrefl 0)
  | succ fuel ih =>
    intro i _
    match fuel, ih with
    | 0, _ =>
      exact ⟨[.writeStderr (checkingMsg i)], rfl⟩
    | fuel + 1, ih =>
      obtain ⟨t, ht⟩ := ih (i + 1) (Nat.succ_pos fuel)
      refine ⟨attemptBlock logId i ++ t, ?_⟩
      show attemptBlock logId i ++ attemptsTrace logId (i + 1) (fuel + 1) = _
      rw [ht, List.append_assoc]

/-- The poll loop never issues more status requests than it has
iterations left. -/
theorem statusUrlsOf_pollFrom_length_le (env : Env) (logId : String) :
    ∀ fuel i, (statusUrlsOf (pollFrom env logId i fuel)).length ≤ fuel := by
  intro fuel
  induction fuel with
  | zero => intro i; exact Nat.le_refl 0
  | succ fuel ih =>
    intro i
    cases h : done env i with
    | true =>
      rw [pollFrom_done env logId i fuel h]
      simp [successBlock, statusUrlsOf, Event.statusUrlOf]
    | false =>
      rw [pollFrom_not_done env logId i fuel h, statusUrlsOf_append]
      have := ih (i + 1)
      simp only [List.length_append]
      have hblock :
          (statusUrlsOf (attemptBlock logId i)).length = 1 := by rfl
      omega

/-- Every delay the poll loop performs is the fixed 5000 ms. -/
theorem sleepsOf_pollFrom_eq (env : Env) (logId : String) :
    ∀ fuel i d, d ∈ sleepsOf (pollFrom env logId i fuel) → d = 5000 := by
  intro fuel
  induction fuel with
  | zero => intro i d hd; exact absurd hd (by simp [pollFrom, sleepsOf])
  | succ fuel ih =>
    intro i d hd
    cases h : done env i with
    | true =>
      rw [pollFrom_done env logId i fuel h] at hd
      simp [successBlock, sleepsOf, Event.sleepOf] at hd
    | false =>
      rw [pollFrom_not_done env logId i fuel h, sleepsOf_append] at hd
      rcases List.mem_append.mp hd with hd | hd
      · simpa [attemptBlock, sleepsOf, Event.sleepOf] using hd
      · exact ih (i + 1) d hd

/-- Every status request the poll loop issues targets the fixed status
URL built from the single `logId`. -/
theorem statusUrlsOf_pollFrom_mem (env : Env) (logId : String) :
    ∀ fuel i u, u ∈ statusUrlsOf (pollFrom env logId i fuel) →
      u = statusUrl logId := by
  intro fuel
  induction fuel with
  | zero => intro i u hu; exact absurd hu (by simp [pollFrom, statusUrlsOf])
  | succ fuel ih =>
    intro i u hu
    cases h : done env i with
    | true =>
      rw [pollFrom_done env logId i fuel h] at hu
      simpa [successBlock, statusUrlsOf, Event.statusUrlOf] using hu
    | false =>
      rw [pollFrom_not_done env logId i fuel h, statusUrlsOf_append] at hu
      rcases List.mem_append.mp hu with hu | hu
      · simpa [attemptBlock, statusUrlsOf, Event.statusUrlOf] using hu
      · exact ih (i + 1) u hu

/-- The poll loop never issues a trigger request. -/
theorem triggerUrlsOf_pollFrom (env : Env) (logId : String) :
    ∀ fuel i, triggerUrlsOf (pollFrom env logId i fuel) = [] := by
  intro fuel
  induction fuel with
  | zero => intro i; rfl
  | succ fuel ih =>
    intro i
    cases h : done env i with
    | true =>
      rw [pollFrom_done env logId i fuel h]
      rfl
    | false =>
      rw [pollFrom_not_done env logId i fuel h, triggerUrlsOf_append, ih (i + 1)]
      rfl

/-! ### Top-level trace shapes of `runSync` -/

/-- Missing or empty package name: usage text, exit 1, nothing else. -/
theorem runSync_usage_trace (env : Env) (argv : List String)
    (h : jsTruthy argv.head? = false) :
    runSync env argv = [.writeStderr usageMsg, .exitWith 1] := by
  simp [runSync, h]

/-- Trigger rejected (`ok: false`): notice, trigger fetch, failure
message, exit 1, nothing else. -/
theorem runSync_reject_trace (env : Env) (argv : List String)
    (h1 : jsTruthy argv.head? = true) (h2 : env.syncResp.ok = false) :
    runSync env argv =
      [.writeStderr ("Syncing " ++ argv.head?.getD "" ++ "...\n"),
       .fetchTrigger (triggerUrl (argv.head?.getD "")),
       .writeStderr ("Failed to sync: " ++ jsTemplate env.syncResp),
       .exitWith 1] := by
  simp [runSync, h1, h2]

/-- Trigger accepted: notices, trigger fetch, poll loop, final exit 0. -/
theorem runSync_ok_trace (env : Env) (argv : List String)
    (h1 : jsTruthy argv.head? = true) (h2 : env.syncResp.ok = true) :
    runSync env argv =
      .writeStderr ("Syncing " ++ argv.head?.getD "" ++ "...\n") ::
      .fetchTrigger (triggerUrl (argv.head?.getD "")) ::
      .writeStderr ("Sync started: " ++ env.syncResp.logId ++ "\n") ::
        (pollFrom env env.syncResp.logId 0 MAX_PULL ++ [.exitWith 0]) := by
  simp [runSync, h1, h2]

/-! ### Concrete environments used by the witnesses -/

/-- Service rejects the trigger outright. -/
def envRejected : Env :=
  ⟨⟨false, "r1"⟩, fun _ => ⟨false, false, ""⟩, fun _ => ""⟩

/-- Service rejects the trigger with a different response body than
`envRejected` (distinct `logId`). -/
def envRejectedB : Env :=
  ⟨⟨false, "r2"⟩, fun _ => ⟨false, false, ""⟩, fun _ => ""⟩

/-- Trigger accepted but the job never reports done. -/
def envNeverDone : Env :=
  ⟨⟨true, "abc123"⟩, fun _ => ⟨true, false, ""⟩, fun _ => ""⟩

/-- Trigger accepted and the very first status poll reports done. -/
def envDoneAtOnce : Env :=
  ⟨⟨true, "abc123"⟩, fun _ => ⟨true, true, "https://x/log"⟩,
   fun u => if u == "https://x/log" then "sync complete\n" else ""⟩

/-- The spec's concrete scenario: first poll not done, second poll done
with `logUrl = https://x/log`, whose body is `"sync complete\n"`. -/
def envDoneSecond : Env :=
  ⟨⟨true, "abc123"⟩,
   fun i => if i = 0 then ⟨true, false, ""⟩ else ⟨true, true, "https://x/log"⟩,
   fun u => if u == "https://x/log" then "sync complete\n" else ""⟩

/-! ### Claims -/

/-- C1 counterexample: the failure message does not carry the raw
response. Two runs whose triggers return distinct rejected bodies
(`logId` `"r1"` vs `"r2"`) produce byte-identical event traces: the
stderr output is the constant `Failed to sync: [object Object]` for
both, so nothing of the raw response is recoverable from it. -/
theorem C1_constant_failure_message :
    envRejected.syncResp ≠ envRejectedB.syncResp ∧
    runSync envRejected ["left-pad"] = runSync envRejectedB ["left-pad"] ∧
    stderrsOf (runSync envRejected ["left-pad"]) =
      ["Syncing left-pad...\n", "Failed to sync: [object Object]"] := by
  exact ⟨by decide, rfl, rfl⟩

/-- C1 (amended): whenever the trigger request returns a body with
`ok = false`, the run writes the fixed failure message
`Failed to sync: [object Object]` — the JS template interpolation of the
parsed response object, which does not include the response's content —
to stderr and exits with code 1 immediately: the trace is exactly the
syncing notice, the trigger fetch, the failure message, and the exit —
so no status request, no log fetch and no sleep ever happens. -/
theorem C1_trigger_rejected (env : Env) (argv : List String)
    (h1 : jsTruthy argv.head? = true) (h2 : env.syncResp.ok = false) :
    runSync env argv =
      [.writeStderr ("Syncing " ++ argv.head?.getD "" ++ "...\n"),
       .fetchTrigger (triggerUrl (argv.head?.getD "")),
       .writeStderr "Failed to sync: [object Object]",
       .exitWith 1] ∧
    "Failed to sync: [object Object]" ∈ stderrsOf (runSync env argv) ∧
    statusUrlsOf (runSync env argv) = [] ∧
    logUrlsOf (runSync env argv) = [] ∧
    exitCodesOf (runSync env argv) = [1] := by
  have hmsg : "Failed to sync: " ++ jsTemplate env.syncResp =
      "Failed to sync: [object Object]" := rfl
  have htrace := runSync_reject_trace env argv h1 h2
  rw [hmsg] at htrace
  refine ⟨htrace, ?_, ?_, ?_, ?_⟩ <;> rw [htrace] <;>
    simp [stderrsOf, Event.stderrOf, statusUrlsOf, Event.statusUrlOf,
      logUrlsOf, Event.logUrlOf, exitCodesOf, Event.exitOf]

/-- Witness for C1: the rejected-trigger environment on input
`["left-pad"]`. -/
theorem C1_trigger_rejected_witness :
    "Failed to sync: [object Object]" ∈
      stderrsOf (runSync envRejected ["left-pad"]) ∧
    statusUrlsOf (runSync envRejected ["left-pad"]) = [] ∧
    exitCodesOf (runSync envRejected ["left-pad"]) = [1] := by
  have h := C1_trigger_rejected envRejected ["left-pad"] (by decide) rfl
  exact ⟨h.2.1, h.2.2.1, h.2.2.2.2⟩

/-- C2: with the package-name argument absent or equal to `""`, the run
is exactly the usage message on stderr followed by exit 1 — no trigger,
status or log request is ever issued. -/
theorem C2_usage (env : Env) (argv : List String)
    (h : argv.head? = none ∨ argv.head? = some "") :
    runSync env argv = [.writeStderr usageMsg, .exitWith 1] ∧
    stderrsOf (runSync env argv) = [usageMsg] ∧
    exitCodesOf (runSync env argv) = [1] ∧
    triggerUrlsOf (runSync env argv) = [] ∧
    statusUrlsOf (runSync env argv) = [] ∧
    logUrlsOf (runSync env argv) = [] := by
  have hfalse : jsTruthy argv.head? = false := by
    rcases h with h | h <;> rw [h] <;> rfl
  have htrace := runSync_usage_trace env argv hfalse
  refine ⟨htrace, ?_, ?_, ?_, ?_, ?_⟩ <;> rw [htrace] <;>
    simp [stderrsOf, Event.stderrOf, exitCodesOf, Event.exitOf,
      triggerUrlsOf, Event.triggerUrlOf, statusUrlsOf, Event.statusUrlOf,
      logUrlsOf, Event.logUrlOf]

/-- Witness for C2: the absent-argument run and the empty-string run. -/
theorem C2_usage_witness :
    (runSync envNeverDone [] = [.writeStderr usageMsg, .exitWith 1] ∧
      triggerUrlsOf (runSync envNeverDone []) = []) ∧
    (runSync envNeverDone [""] = [.writeStderr usageMsg, .exitWith 1] ∧
      exitCodesOf (runSync envNeverDone [""]) = [1]) := by
  have ha := C2_usage envNeverDone [] (Or.inl rfl)
  have hb := C2_usage envNeverDone [""] (Or.inr rfl)
  exact ⟨⟨ha.1, ha.2.2.2.1⟩, ⟨hb.1, hb.2.2.1⟩⟩

/-! ### Observations of a run whose trigger succeeded -/

theorem statusUrlsOf_runSync_ok (env : Env) (argv : List String)
    (h1 : jsTruthy argv.head? = true) (h2 : env.syncResp.ok = true) :
    statusUrlsOf (runSync env argv) =
      statusUrlsOf (pollFrom env env.syncResp.logId 0 MAX_PULL) := by
  rw [runSync_ok_trace env argv h1 h2]
  simp [statusUrlsOf, Event.statusUrlOf]

theorem triggerUrlsOf_runSync_ok (env : Env) (argv : List String)
    (h1 : jsTruthy argv.head? = true) (h2 : env.syncResp.ok = true) :
    triggerUrlsOf (runSync env argv) = [triggerUrl (argv.head?.getD "")] := by
  rw [runSync_ok_trace env argv h1 h2]
  have hstep : triggerUrlsOf
      (Event.writeStderr ("Syncing " ++ argv.head?.getD "" ++ "...\n") ::
       Event.fetchTrigger (triggerUrl (argv.head?.getD "")) ::
       Event.writeStderr ("Sync started: " ++ env.syncResp.logId ++ "\n") ::
         (pollFrom env env.syncResp.logId 0 MAX_PULL ++ [.exitWith 0])) =
      triggerUrl (argv.head?.getD "") ::
        triggerUrlsOf (pollFrom env env.syncResp.logId 0 MAX_PULL ++
          [.exitWith 0]) := rfl
  rw [hstep, triggerUrlsOf_append,
    triggerUrlsOf_pollFrom env env.syncResp.logId MAX_PULL 0]
  rfl

theorem logUrlsOf_runSync_ok (env : Env) (argv : List String)
    (h1 : jsTruthy argv.head? = true) (h2 : env.syncResp.ok = true) :
    logUrlsOf (runSync env argv) =
      logUrlsOf (pollFrom env env.syncResp.logId 0 MAX_PULL) := by
  rw [runSync_ok_trace env argv h1 h2]
  simp [logUrlsOf, Event.logUrlOf]

theorem sleepsOf_runSync_ok (env : Env) (argv : List String)
    (h1 : jsTruthy argv.head? = true) (h2 : env.syncResp.ok = true) :
    sleepsOf (runSync env argv) =
      sleepsOf (pollFrom env env.syncResp.logId 0 MAX_PULL) := by
  rw [runSync_ok_trace env argv h1 h2]
  simp [sleepsOf, Event.sleepOf]

theorem stdoutOf_runSync_ok (env : Env) (argv : List String)
    (h1 : jsTruthy argv.head? = true) (h2 : env.syncResp.ok = true) :
    stdoutOf (runSync env argv) =
      stdoutOf (pollFrom env env.syncResp.logId 0 MAX_PULL) := by
  rw [runSync_ok_trace env argv h1 h2]
  simp [stdoutOf, Event.stdoutOf, concatAll, concatAll_append]

theorem exitCodesOf_runSync_ok (env : Env) (argv : List String)
    (h1 : jsTruthy argv.head? = true) (h2 : env.syncResp.ok = true) :
    exitCodesOf (runSync env argv) =
      exitCodesOf (pollFrom env env.syncResp.logId 0 MAX_PULL) ++ [0] := by
  rw [runSync_ok_trace env argv h1 h2]
  simp [exitCodesOf, Event.exitOf]

theorem stderrsOf_runSync_ok (env : Env) (argv : List String)
    (h1 : jsTruthy argv.head? = true) (h2 : env.syncResp.ok = true) :
    stderrsOf (runSync env argv) =
      ("Syncing " ++ argv.head?.getD "" ++ "...\n") ::
      ("Sync started: " ++ env.syncResp.logId ++ "\n") ::
        stderrsOf (pollFrom env env.syncResp.logId 0 MAX_PULL) := by
  rw [runSync_ok_trace env argv h1 h2]
  simp [stderrsOf, Event.stderrOf]

/-- C3: once the trigger succeeds, the poll loop issues at most
`MAX_PULL = 10` status requests, every delay it performs is the fixed
5000 ms (no exponential backoff), and the run always terminates, ending
in the process exit. -/
theorem C3_bounded_polling (env : Env) (argv : List String)
    (h1 : jsTruthy argv.head? = true) (h2 : env.syncResp.ok = true) :
    (statusUrlsOf (runSync env argv)).length ≤ MAX_PULL ∧
    (∀ d ∈ sleepsOf (runSync env argv), d = 5000) ∧
    (∃ t, runSync env argv = t ++ [.exitWith 0]) := by
  refine ⟨?_, ?_, ?_⟩
  · rw [statusUrlsOf_runSync_ok env argv h1 h2]
    exact statusUrlsOf_pollFrom_length_le env env.syncResp.logId MAX_PULL 0
  · intro d hd
    rw [sleepsOf_runSync_ok env argv h1 h2] at hd
    exact sleepsOf_pollFrom_eq env env.syncResp.logId MAX_PULL 0 d hd
  · refine ⟨.writeStderr ("Syncing " ++ argv.head?.getD "" ++ "...\n") ::
      .fetchTrigger (triggerUrl (argv.head?.getD "")) ::
      .writeStderr ("Sync started: " ++ env.syncResp.logId ++ "\n") ::
        pollFrom env env.syncResp.logId 0 MAX_PULL, ?_⟩
    rw [runSync_ok_trace env argv h1 h2]
    simp

/-- Witness for C3: the never-done environment on input `["left-pad"]`. -/
theorem C3_bounded_polling_witness :
    (statusUrlsOf (runSync envNeverDone ["left-pad"])).length ≤ MAX_PULL ∧
    (∀ d ∈ sleepsOf (runSync envNeverDone ["left-pad"]), d = 5000) := by
  have h := C3_bounded_polling envNeverDone ["left-pad"] (by decide) rfl
  exact ⟨h.1, h.2.1⟩

/-- C4: when the very first status response already has `ok = true` and
`syncDone = true`, the run issues exactly one trigger request, exactly
one status request and exactly one log fetch, and writes the log fetch's
body verbatim (and nothing else) to stdout. -/
theorem C4_immediate_success (env : Env) (argv : List String)
    (h1 : jsTruthy argv.head? = true) (h2 : env.syncResp.ok = true)
    (h3 : (env.statuses 0).ok = true) (h4 : (env.statuses 0).syncDone = true) :
    triggerUrlsOf (runSync env argv) = [triggerUrl (argv.head?.getD "")] ∧
    statusUrlsOf (runSync env argv) = [statusUrl env.syncResp.logId] ∧
    logUrlsOf (runSync env argv) = [(env.statuses 0).logUrl] ∧
    stdoutOf (runSync env argv) = env.logBody ((env.statuses 0).logUrl) := by
  have hdone : done env 0 = true := by simp [done, h3, h4]
  have hp : pollFrom env env.syncResp.logId 0 MAX_PULL =
      successBlock env env.syncResp.logId 0 :=
    pollFrom_done env env.syncResp.logId 0 9 hdone
  refine ⟨triggerUrlsOf_runSync_ok env argv h1 h2, ?_, ?_, ?_⟩
  · rw [statusUrlsOf_runSync_ok env argv h1 h2, hp]
    simp [successBlock, statusUrlsOf, Event.statusUrlOf]
  · rw [logUrlsOf_runSync_ok env argv h1 h2, hp]
    simp [successBlock, logUrlsOf, Event.logUrlOf]
  · rw [stdoutOf_runSync_ok env argv h1 h2, hp]
    simp [successBlock, stdoutOf, Event.stdoutOf, concatAll,
      String.append_empty]

/-- Witness for C4: the done-at-once environment on input `["left-pad"]`. -/
theorem C4_immediate_success_witness :
    statusUrlsOf (runSync envDoneAtOnce ["left-pad"]) =
      ["https://registry-direct.npmmirror.com/express/sync/log/abc123"] ∧
    logUrlsOf (runSync envDoneAtOnce ["left-pad"]) = ["https://x/log"] ∧
    stdoutOf (runSync envDoneAtOnce ["left-pad"]) = "sync complete\n" := by
  have h := C4_immediate_success envDoneAtOnce ["left-pad"] (by decide) rfl rfl rfl
  refine ⟨?_, ?_, ?_⟩
  · rw [h.2.1]; rfl
  · rw [h.2.2.1]; rfl
  · rw [h.2.2.2]; rfl

/-- C5: the poll loop stops at the first status response with both `ok`
and `syncDone` true — earlier responses (which may have one of the two
flags set) keep it polling — and on that success path it performs exactly
one log fetch, against the returned `logUrl`, whose body becomes the
whole stdout. With the first done response at 0-based attempt `k`,
exactly `k + 1` status requests are made. -/
theorem C5_stops_at_first_done (env : Env) (argv : List String) (k : Nat)
    (h1 : jsTruthy argv.head? = true) (h2 : env.syncResp.ok = true)
    (hk : k < MAX_PULL) (hd : done env k = true)
    (hb : ∀ j, j < k → done env j = false) :
    (statusUrlsOf (runSync env argv)).length = k + 1 ∧
    logUrlsOf (runSync env argv) = [(env.statuses k).logUrl] ∧
    stdoutOf (runSync env argv) = env.logBody ((env.statuses k).logUrl) := by
  have hd' : done env (0 + k) = true := by simpa using hd
  have hb' : ∀ j, j < k → done env (0 + j) = false := by
    intro j hj; simpa using hb j hj
  have hp := pollFrom_success env env.syncResp.logId k MAX_PULL 0 hk hd' hb'
  rw [Nat.zero_add] at hp
  refine ⟨?_, ?_, ?_⟩
  · rw [statusUrlsOf_runSync_ok env argv h1 h2, hp, statusUrlsOf_append,
      statusUrlsOf_attemptsTrace]
    simp [successBlock, statusUrlsOf, Event.statusUrlOf]
  · rw [logUrlsOf_runSync_ok env argv h1 h2, hp, logUrlsOf_append,
      logUrlsOf_attemptsTrace]
    simp [successBlock, logUrlsOf, Event.logUrlOf]
  · rw [stdoutOf_runSync_ok env argv h1 h2, hp, stdoutOf_append,
      stdoutOf_attemptsTrace]
    simp [successBlock, stdoutOf, Event.stdoutOf, concatAll,
      String.append_empty]

/-- Witness for C5: the spec's concrete scenario — `"left-pad"`, first
poll not done, second poll done with log body `"sync complete\n"` — makes
exactly two status requests and stdout is exactly the log body. -/
theorem C5_stops_at_first_done_witness :
    (statusUrlsOf (runSync envDoneSecond ["left-pad"])).length = 2 ∧
    stdoutOf (runSync envDoneSecond ["left-pad"]) = "sync complete\n" := by
  have h := C5_stops_at_first_done envDoneSecond ["left-pad"] 1
    (by decide) rfl (by decide) rfl
    (by intro j hj; have hj0 : j = 0 := Nat.lt_one_iff.mp hj; subst hj0; rfl)
  exact ⟨h.1, by rw [h.2.2]; rfl⟩

/-- C6: when no status response within the `MAX_PULL` attempts has both
flags true, the run writes nothing to stdout, fetches no log, and ends
with exit code 0 (silent timeout) — it terminates rather than hanging or
raising an error. -/
theorem C6_silent_timeout (env : Env) (argv : List String)
    (h1 : jsTruthy argv.head? = true) (h2 : env.syncResp.ok = true)
    (h3 : ∀ j, j < MAX_PULL → done env j = false) :
    stdoutOf (runSync env argv) = "" ∧
    logUrlsOf (runSync env argv) = [] ∧
    exitCodesOf (runSync env argv) = [0] := by
  have h3' : ∀ j, j < MAX_PULL → done env (0 + j) = false := by
    intro j hj; simpa using h3 j hj
  have hp := pollFrom_timeout env env.syncResp.logId MAX_PULL 0 h3'
  refine ⟨?_, ?_, ?_⟩
  · rw [stdoutOf_runSync_ok env argv h1 h2, hp, stdoutOf_attemptsTrace]
  · rw [logUrlsOf_runSync_ok env argv h1 h2, hp, logUrlsOf_attemptsTrace]
  · rw [exitCodesOf_runSync_ok env argv h1 h2, hp, exitCodesOf_attemptsTrace]
    rfl

/-- Witness for C6: the never-done environment on input `["left-pad"]`. -/
theorem C6_silent_timeout_witness :
    stdoutOf (runSync envNeverDone ["left-pad"]) = "" ∧
    exitCodesOf (runSync envNeverDone ["left-pad"]) = [0] := by
  have h := C6_silent_timeout envNeverDone ["left-pad"] (by decide) rfl
    (fun _ _ => rfl)
  exact ⟨h.1, h.2.2⟩

/-- C7: in every run at most one trigger request is issued (exactly one
once the argument check passes), and every status request targets the
status URL built from the one `logId` of the trigger response — the
handle is never retried or regenerated. -/
theorem C7_single_handle (env : Env) (argv : List String) :
    (triggerUrlsOf (runSync env argv)).length ≤ 1 ∧
    (jsTruthy argv.head? = true →
      triggerUrlsOf (runSync env argv) = [triggerUrl (argv.head?.getD "")]) ∧
    (∀ u ∈ statusUrlsOf (runSync env argv),
      u = statusUrl env.syncResp.logId) := by
  cases ht : jsTruthy argv.head? with
  | false =>
    have htrace := runSync_usage_trace env argv ht
    refine ⟨?_, ?_, ?_⟩
    · rw [htrace]; exact Nat.zero_le 1
    · intro h; exact absurd h Bool.false_ne_true
    · intro u hu
      rw [htrace] at hu
      simp [statusUrlsOf, Event.statusUrlOf] at hu
  | true =>
    cases hok : env.syncResp.ok with
    | true =>
      have htr := triggerUrlsOf_runSync_ok env argv ht hok
      refine ⟨by rw [htr]; exact Nat.le_refl 1, fun _ => htr, ?_⟩
      intro u hu
      rw [statusUrlsOf_runSync_ok env argv ht hok] at hu
      exact statusUrlsOf_pollFrom_mem env env.syncResp.logId MAX_PULL 0 u hu
    | false =>
      have htrace := runSync_reject_trace env argv ht hok
      refine ⟨?_, fun _ => ?_, ?_⟩
      · rw [htrace]; exact Nat.le_refl 1
      · rw [htrace]; rfl
      · intro u hu
        rw [htrace] at hu
        simp [statusUrlsOf, Event.statusUrlOf] at hu

/-- Witness for C7: with a present package name exactly one trigger
request is issued. -/
theorem C7_single_handle_witness :
    triggerUrlsOf (runSync envNeverDone ["left-pad"]) =
      [triggerUrl "left-pad"] :=
  (C7_single_handle envNeverDone ["left-pad"]).2.1 (by decide)

/-! ### More shared facts about whole runs -/

/-- Every status URL of any run is the fixed URL built from the trigger
response's `logId`. -/
theorem statusUrlsOf_runSync_mem (env : Env) (argv : List String) :
    ∀ u ∈ statusUrlsOf (runSync env argv),
      u = statusUrl env.syncResp.logId := by
  intro u hu
  cases ht : jsTruthy argv.head? with
  | false =>
    rw [runSync_usage_trace env argv ht] at hu
    simp [statusUrlsOf, Event.statusUrlOf] at hu
  | true =>
    cases hok : env.syncResp.ok with
    | false =>
      rw [runSync_reject_trace env argv ht hok] at hu
      simp [statusUrlsOf, Event.statusUrlOf] at hu
    | true =>
      rw [statusUrlsOf_runSync_ok env argv ht hok] at hu
      exact statusUrlsOf_pollFrom_mem env env.syncResp.logId MAX_PULL 0 u hu

/-- With the argument present, the status requests of a run depend only
on the environment (trigger `ok` and the poll loop), not on `argv`. -/
theorem statusUrlsOf_runSync_truthy (env : Env) (argv : List String)
    (h : jsTruthy argv.head? = true) :
    statusUrlsOf (runSync env argv) =
      if env.syncResp.ok then
        statusUrlsOf (pollFrom env env.syncResp.logId 0 MAX_PULL)
      else [] := by
  cases hok : env.syncResp.ok with
  | true =>
    rw [statusUrlsOf_runSync_ok env argv h hok]
    rfl
  | false =>
    rw [runSync_reject_trace env argv h hok]
    rfl

/-- On a full timeout nothing reaches stdout. -/
theorem stdoutOf_runSync_timeout (env : Env) (argv : List String)
    (h1 : jsTruthy argv.head? = true) (h2 : env.syncResp.ok = true)
    (h3 : ∀ j, j < MAX_PULL → done env j = false) :
    stdoutOf (runSync env argv) = "" := by
  have h3' : ∀ j, j < MAX_PULL → done env (0 + j) = false := by
    intro j hj; simpa using h3 j hj
  have hp := pollFrom_timeout env env.syncResp.logId MAX_PULL 0 h3'
  rw [stdoutOf_runSync_ok env argv h1 h2, hp, stdoutOf_attemptsTrace]

/-- When the first done status is at attempt `k`, stdout is exactly the
body fetched from that attempt's `logUrl`. -/
theorem stdoutOf_runSync_done_at (env : Env) (argv : List String) (k : Nat)
    (h1 : jsTruthy argv.head? = true) (h2 : env.syncResp.ok = true)
    (hk : k < MAX_PULL) (hd : done env k = true)
    (hb : ∀ j, j < k → done env j = false) :
    stdoutOf (runSync env argv) = env.logBody ((env.statuses k).logUrl) := by
  have hd' : done env (0 + k) = true := by simpa using hd
  have hb' : ∀ j, j < k → done env (0 + j) = false := by
    intro j hj; simpa using hb j hj
  have hp := pollFrom_success env env.syncResp.logId k MAX_PULL 0 hk hd' hb'
  rw [Nat.zero_add] at hp
  rw [stdoutOf_runSync_ok env argv h1 h2, hp, stdoutOf_append,
    stdoutOf_attemptsTrace]
  simp [successBlock, stdoutOf, Event.stdoutOf, concatAll,
    String.append_empty]

/-- Every attempt the poll loop starts writes its numbered progress
message to stderr. -/
theorem checkingMsg_mem_pollFrom (env : Env) (logId : String) :
    ∀ fuel i j, j < (statusUrlsOf (pollFrom env logId i fuel)).length →
      checkingMsg (i + j) ∈ stderrsOf (pollFrom env logId i fuel) := by
  intro fuel
  induction fuel with
  | zero =>
    intro i j hj
    exact absurd hj (by simp [pollFrom, statusUrlsOf])
  | succ fuel ih =>
    intro i j hj
    cases h : done env i with
    | true =>
      rw [pollFrom_done env logId i fuel h] at hj ⊢
      have hj1 : j < 1 := by
        simpa [successBlock, statusUrlsOf, Event.statusUrlOf] using hj
      have hj0 : j = 0 := by omega
      subst hj0
      simp [successBlock, stderrsOf, Event.stderrOf]
    | false =>
      rw [pollFrom_not_done env logId i fuel h] at hj ⊢
      rw [statusUrlsOf_append] at hj
      rw [stderrsOf_append]
      rcases j with _ | j
      · exact List.mem_append_left _
          (by simp [attemptBlock, stderrsOf, Event.stderrOf])
      · refine List.mem_append_right _ ?_
        have hlen : (statusUrlsOf (attemptBlock logId i)).length = 1 := rfl
        have hj' : j < (statusUrlsOf (pollFrom env logId (i + 1) fuel)).length := by
          rw [List.length_append, hlen] at hj
          omega
        have := ih (i + 1) j hj'
        simpa [Nat.add_assoc, Nat.add_comm 1 j] using this

/-- C8: stdout is either empty or exactly the log body fetched after a
done status; in particular it is empty when the argument check fails,
when the trigger is rejected and when the run times out. All progress
messages — the syncing notice, the sync-started notice and every
per-attempt checking notice — go to stderr. -/
theorem C8_stream_discipline (env : Env) (argv : List String) :
    (jsTruthy argv.head? = false → stdoutOf (runSync env argv) = "") ∧
    (env.syncResp.ok = false → stdoutOf (runSync env argv) = "") ∧
    ((∀ j, j < MAX_PULL → done env j = false) →
      stdoutOf (runSync env argv) = "") ∧
    (stdoutOf (runSync env argv) = "" ∨
      ∃ k, k < MAX_PULL ∧ done env k = true ∧
        stdoutOf (runSync env argv) = env.logBody ((env.statuses k).logUrl)) ∧
    (jsTruthy argv.head? = true → env.syncResp.ok = true →
      ("Syncing " ++ argv.head?.getD "" ++ "...\n") ∈
        stderrsOf (runSync env argv) ∧
      ("Sync started: " ++ env.syncResp.logId ++ "\n") ∈
        stderrsOf (runSync env argv) ∧
      (∀ i, i < (statusUrlsOf (runSync env argv)).length →
        checkingMsg i ∈ stderrsOf (runSync env argv))) := by
  have husage : jsTruthy argv.head? = false → stdoutOf (runSync env argv) = "" := by
    intro h
    rw [runSync_usage_trace env argv h]
    rfl
  have hreject : env.syncResp.ok = false → stdoutOf (runSync env argv) = "" := by
    intro h
    cases ht : jsTruthy argv.head? with
    | false => exact husage ht
    | true =>
      rw [runSync_reject_trace env argv ht h]
      rfl
  have htimeout : (∀ j, j < MAX_PULL → done env j = false) →
      stdoutOf (runSync env argv) = "" := by
    intro h3
    cases ht : jsTruthy argv.head? with
    | false => exact husage ht
    | true =>
      cases hok : env.syncResp.ok with
      | false => exact hreject hok
      | true => exact stdoutOf_runSync_timeout env argv ht hok h3
  refine ⟨husage, hreject, htimeout, ?_, ?_⟩
  · cases ht : jsTruthy argv.head? with
    | false => exact Or.inl (husage ht)
    | true =>
      cases hok : env.syncResp.ok with
      | false => exact Or.inl (hreject hok)
      | true =>
        by_cases hex : ∃ k, k < MAX_PULL ∧ done env k = true
        · obtain hspec := Nat.find_spec hex
          refine Or.inr ⟨Nat.find hex, hspec.1, hspec.2, ?_⟩
          refine stdoutOf_runSync_done_at env argv (Nat.find hex) ht hok
            hspec.1 hspec.2 ?_
          intro j hj
          have hmin := Nat.find_min hex hj
          cases hdj : done env j with
          | false => rfl
          | true =>
            exact absurd ⟨Nat.lt_trans hj hspec.1, hdj⟩ hmin
        · refine Or.inl (htimeout ?_)
          intro j hj
          cases hdj : done env j with
          | false => rfl
          | true => exact absurd ⟨j, hj, hdj⟩ hex
  · intro ht hok
    rw [stderrsOf_runSync_ok env argv ht hok,
      statusUrlsOf_runSync_ok env argv ht hok]
    refine ⟨List.mem_cons_self _ _, List.mem_cons_of_mem _ (List.mem_cons_self _ _), ?_⟩
    intro i hi
    have := checkingMsg_mem_pollFrom env env.syncResp.logId MAX_PULL 0 i hi
    rw [Nat.zero_add] at this
    exact List.mem_cons_of_mem _ (List.mem_cons_of_mem _ this)

/-- Witness for C8: trigger rejection and timeout both leave stdout
empty, and the syncing notice is on stderr. -/
theorem C8_stream_discipline_witness :
    stdoutOf (runSync envRejected ["left-pad"]) = "" ∧
    stdoutOf (runSync envNeverDone ["left-pad"]) = "" ∧
    ("Syncing left-pad...\n") ∈ stderrsOf (runSync envNeverDone ["left-pad"]) := by
  have ha := (C8_stream_discipline envRejected ["left-pad"]).2.1 rfl
  have hb := (C8_stream_discipline envNeverDone ["left-pad"]).2.2.1
    (fun _ _ => rfl)
  have hc := ((C8_stream_discipline envNeverDone ["left-pad"]).2.2.2.2
    (by decide) rfl).1
  exact ⟨ha, hb, hc⟩

/-- C9: every status poll of every run targets
`https://registry-direct.npmmirror.com/express/sync/log/<logId>` — the
package segment is the literal `express` whatever package was requested —
and, argument present, the status requests are identical for any two
package names against the same environment: the package influences the
polls only through the `logId` the trigger returned. -/
theorem C9_status_url_literal_express (env : Env) (argv : List String) :
    (∀ u ∈ statusUrlsOf (runSync env argv),
      u = "https://registry-direct.npmmirror.com/express/sync/log/" ++
        env.syncResp.logId) ∧
    (∀ argv₂ : List String, jsTruthy argv.head? = true →
      jsTruthy argv₂.head? = true →
      statusUrlsOf (runSync env argv) = statusUrlsOf (runSync env argv₂)) := by
  constructor
  · intro u hu
    exact statusUrlsOf_runSync_mem env argv u hu
  · intro argv₂ h h₂
    rw [statusUrlsOf_runSync_truthy env argv h,
      statusUrlsOf_runSync_truthy env argv₂ h₂]

/-- Witness for C9: syncing `"left-pad"` and syncing `"lodash"` issue the
same status requests against the same environment. -/
theorem C9_status_url_literal_express_witness :
    statusUrlsOf (runSync envNeverDone ["left-pad"]) =
      statusUrlsOf (runSync envNeverDone ["lodash"]) :=
  (C9_status_url_literal_express envNeverDone ["left-pad"]).2 ["lodash"]
    (by decide) (by decide)

/-- C10: on a run that times out, every one of the 10 unsuccessful
attempts — the tenth included — is followed by the full 5000 ms sleep:
the run performs exactly 10 status requests and exactly 10 delays of
5000 ms, and its trace ends with a status fetch, then the trailing
sleep, then the exit. -/
theorem C10_trailing_sleep (env : Env) (argv : List String)
    (h1 : jsTruthy argv.head? = true) (h2 : env.syncResp.ok = true)
    (h3 : ∀ j, j < MAX_PULL → done env j = false) :
    sleepsOf (runSync env argv) = List.replicate MAX_PULL 5000 ∧
    (statusUrlsOf (runSync env argv)).length = MAX_PULL ∧
    (∃ t, runSync env argv =
      t ++ [.fetchStatus (statusUrl env.syncResp.logId), .sleep 5000,
        .exitWith 0]) := by
  have h3' : ∀ j, j < MAX_PULL → done env (0 + j) = false := by
    intro j hj; simpa using h3 j hj
  have hp := pollFrom_timeout env env.syncResp.logId MAX_PULL 0 h3'
  refine ⟨?_, ?_, ?_⟩
  · rw [sleepsOf_runSync_ok env argv h1 h2, hp, sleepsOf_attemptsTrace]
  · rw [statusUrlsOf_runSync_ok env argv h1 h2, hp, statusUrlsOf_attemptsTrace]
    simp
  · obtain ⟨t0, ht0⟩ := attemptsTrace_ends_with_sleep env.syncResp.logId
      MAX_PULL 0 (by decide)
    refine ⟨.writeStderr ("Syncing " ++ argv.head?.getD "" ++ "...\n") ::
      .fetchTrigger (triggerUrl (argv.head?.getD "")) ::
      .writeStderr ("Sync started: " ++ env.syncResp.logId ++ "\n") :: t0, ?_⟩
    rw [runSync_ok_trace env argv h1 h2, hp, ht0]
    simp

/-- Witness for C10: the never-done environment on input `["left-pad"]`
sleeps exactly 10 times, 5000 ms each, after its 10 status requests. -/
theorem C10_trailing_sleep_witness :
    sleepsOf (runSync envNeverDone ["left-pad"]) =
      List.replicate MAX_PULL 5000 ∧
    (statusUrlsOf (runSync envNeverDone ["left-pad"])).length = MAX_PULL := by
  have h := C10_trailing_sleep envNeverDone ["left-pad"] (by decide) rfl
    (fun _ _ => rfl)
  exact ⟨h.1, h.2.1⟩
